import Mathlib

/-!
Verification development for the `rapidsms.config` module
(`lib/rapidsms/config.py` of dimagi/rapidsms-core).

The module is embedded shallowly:

* Python dicts are modelled as functions `String → Option α` (Python 2
  dicts are unordered, so a key-to-value map is a faithful model);
* the dynamic import machinery (`__import__` plus the getattr tail of
  `Config.__import_class`) is abstracted by an environment
  `Env : String → Option PyModule` mapping each fully-qualified dotted
  path to the module object it denotes, `none` meaning the import raises
  `ImportError`;
* functions that can raise an exception that escapes to their caller are
  given the type `Except String α`; exceptions caught inside a function
  do not appear in its type.
-/

/-- A Python dict with string keys, modelled as a partial map. -/
def PyDict (α : Type) : Type := String → Option α

/-- The empty dict `{}`. -/
def demp {α : Type} : PyDict α := fun _ => none

/-- Dict assignment `d[k] = v`. -/
def dset {α : Type} (d : PyDict α) (k : String) (v : α) : PyDict α :=
  fun q => if q = k then some v else d q

/-- Python `str.strip()`: remove leading and trailing whitespace. -/
def py_strip (s : String) : String :=
  String.mk
    ((((s.toList.dropWhile Char.isWhitespace).reverse).dropWhile
        Char.isWhitespace).reverse)

/-- Python `str.strip(chars)`: remove leading and trailing characters
drawn from `chars`. -/
def py_strip_chars (s : String) (chars : String) : String :=
  String.mk
    ((((s.toList.dropWhile (fun c => c ∈ chars.toList)).reverse).dropWhile
        (fun c => c ∈ chars.toList)).reverse)

/-- Python `str.lower()` (ASCII case folding, which is all the config
format uses). -/
def py_lower (s : String) : String :=
  String.mk (s.toList.map Char.toLower)

/-- Python `s.startswith(pre)`. -/
def py_startswith (s pre : String) : Bool :=
  pre.toList.isPrefixOf s.toList

/-- If `sep` is a prefix of the list, drop it and return the remainder. -/
def drop_sep : List Char → List Char → Option (List Char)
  | [], cs => some cs
  | _ :: _, [] => none
  | p :: ps, c :: cs => if c = p then drop_sep ps cs else none

/-- Worker for `py_split`, structurally recursive on a fuel argument so
that it evaluates inside the kernel; `fuel = length of the input` is
always enough, because a nonempty separator consumes at least one
character whenever it matches. -/
def py_split_go (sep : List Char) : Nat → List Char → List (List Char)
  | _, [] => [[]]
  | 0, c :: cs => [c :: cs] -- unreachable when fuel starts at the length
  | fuel + 1, c :: cs =>
    match drop_sep sep (c :: cs) with
    | some rest => [] :: py_split_go sep fuel rest
    | none =>
      match py_split_go sep fuel cs with
      | [] => [[c]] -- unreachable: the result is always nonempty
      | g :: gs => (c :: g) :: gs

/-- Python `s.split(sep)` for a nonempty separator `sep`: split on each
exact, non-overlapping occurrence, keeping empty fields. -/
def py_split (s : String) (sep : String) : List String :=
  (py_split_go sep.toList s.toList.length s.toList).map String.mk

/-- Line 8: `to_list(item, separator=",")`:
`filter(None, map(lambda x: str(x).strip(), item.split(separator)))`.
`filter(None, ...)` drops the empty strings. -/
def to_list (item : String) (separator : String) : List String :=
  ((py_split item separator).map py_strip).filter (fun x => x ≠ "")

/-- Python `int(s)`: strict parse after stripping surrounding whitespace;
an optional sign followed by one or more decimal digits. -/
def py_int (s : String) : Option Int :=
  let cs := (py_strip s).toList
  let sign_digits : Int × List Char :=
    match cs with
    | '-' :: rest => (-1, rest)
    | '+' :: rest => (1, rest)
    | _ => (1, cs)
  if sign_digits.2 ≠ [] ∧ sign_digits.2.all Char.isDigit then
    some (sign_digits.1 *
      Int.ofNat (sign_digits.2.foldl (fun n c => n * 10 + (c.toNat - 48)) 0))
  else none

/-- Split a character list at the first occurrence of `sep`, if any. -/
def split_first (sep : Char) : List Char → Option (List Char × List Char)
  | [] => none
  | c :: r =>
    if c = sep then some ([], r)
    else (split_first sep r).map (fun p => (c :: p.1, p.2))

/-- Nonempty and all decimal digits. -/
def all_digits (cs : List Char) : Bool :=
  !cs.isEmpty && cs.all Char.isDigit

/-- Drop one optional leading sign character. -/
def strip_sign : List Char → List Char
  | [] => []
  | c :: r => if c = '+' ∨ c = '-' then r else c :: r

/-- Digit-part validity of a Python float literal without sign or
exponent: `d+`, `d+.d*` or `.d+`. -/
def py_float_base_ok (cs : List Char) : Bool :=
  match split_first '.' cs with
  | none => all_digits cs
  | some (a, b) =>
    (all_digits a && (b.isEmpty || all_digits b)) || (a.isEmpty && all_digits b)

/-- Whether Python `float(s)` succeeds (numeric literals; the `inf`/`nan`
spellings are irrelevant here because `Config.__normalize_value` discards
the conversion result anyway). -/
def py_float_ok (s : String) : Bool :=
  let cs := (strip_sign ((py_strip s).toList)).map Char.toLower
  match split_first 'e' cs with
  | none => py_float_base_ok cs
  | some (m, e) => py_float_base_ok m && all_digits (strip_sign e)

/-- The typed scalar a raw config value is normalized to (the spec's
NormalizedValue). The source's docstring promises `int` and `float`
variants, but the code below never produces them. -/
inductive NormalizedValue where
  | bool (b : Bool)
  | int (n : Int)
  | float (lit : String)
  | str (s : String)
deriving DecidableEq, Repr

/-- Lines 104-128: `Config.__normalize_value`. The boolean keywords are
recognized case-insensitively; then `for func in [int, float]: try:
func(value) except: pass` attempts the numeric conversions but discards
their results, so the function falls through to returning the original
string. -/
def normalize_value (value : String) : NormalizedValue :=
  if py_lower value ∈ (["false", "no"] : List String) then
    NormalizedValue.bool false
  else if py_lower value ∈ (["true", "yes"] : List String) then
    NormalizedValue.bool true
  else
    -- for func in [int, float]: try: func(value) except: pass
    -- (the converted values are discarded, as in the source)
    let _ := py_int value
    let _ := py_float_ok value
    NormalizedValue.str value

/-- A Python module object, as far as this program inspects one:
`attrs` lists the names `dir(module)` yields (public and private) with
their values, in `dir` order; `path` is the `__path__` attribute of a
package, the empty list standing for a module where `__path__[0]` raises
(no `__path__` attribute, or an empty one).

Attribute values are left opaque: `Config.app_section` only copies them
into a dict, so a `String` payload loses nothing. -/
structure PyModule where
  path : List String
  attrs : List (String × String)
deriving DecidableEq, Repr

/-- The import environment: each fully-qualified dotted path maps to the
object it denotes, or `none` when importing it raises `ImportError`. -/
def Env : Type := String → Option PyModule

/-- Lines 54: `Config.app_prefixes`. -/
def app_prefixes : List String := ["rapidsms.contrib.apps", "rapidsms.apps"]

/-- Lines 131-151: `Config.__import_class`. The `rsplit`, `__import__`
and trailing `getattr` are absorbed into one environment lookup of the
full dotted path; the `except ImportError` handler logs and falls
through, so a failed import yields `None` and never re-raises. -/
def import_class (env : Env) (class_tmpl : String) : Option PyModule :=
  env class_tmpl

/-- Line 183-184: the message of the `ImportError` that lines 182-184
would raise. -/
def import_error_msg (app_type : String) : String :=
  "Couldn't import \"" ++ app_type ++ "\" from " ++
    String.intercalate " or " app_prefixes

/-- Lines 168-184 of `Config.__import_app`: the namespace-root fallback
loop and the final `raise ImportError`. Because `__import_class` never
raises, `__import_app` never reaches this code at runtime. -/
def import_app_fallback (env : Env) (app_type : String) :
    List String → Except String (String × Option PyModule)
  | [] => Except.error (import_error_msg app_type)
  | root :: rest =>
    let mod_str := root ++ "." ++ app_type
    match import_class env mod_str with
    | some m => Except.ok (mod_str, some m)
    | none => import_app_fallback env app_type rest

/-- Lines 154-184: `Config.__import_app`. The first attempt wraps
`__import_class(app_type)` in `try ... except ImportError: pass`; since
`__import_class` catches `ImportError` itself (returning `None`), the
first attempt always returns and the fallback is dead code. -/
def import_app (env : Env) (app_type : String) :
    Except String (String × Option PyModule) :=
  let first_attempt : Except String (String × Option PyModule) :=
    Except.ok (app_type, import_class env app_type)
  match first_attempt with
  | Except.ok r => Except.ok r
  | Except.error _ => import_app_fallback env app_type app_prefixes

/-- Lines 202-205: the `DeprecationWarning` message raised when an app
section contains the `"type"` option (the source's typo `multple` kept). -/
def dep_warning_msg : String :=
  "The \"type\" option is not supported for apps. It does " ++
    "nothing, since running multple apps of the same type " ++
    "is not currently possible."

/-- Lines 225-227: copy every name of `dir(config)` that does not start
with an underscore into `data`. -/
def copy_public_attrs (attrs : List (String × String)) (data : PyDict String) :
    PyDict String :=
  attrs.foldl
    (fun d kv => if py_startswith kv.1 "_" then d else dset d kv.1 kv.2) data

/-- Lines 220-227: load the app's `config.py` sub-module, if possible,
and merge its public names into `data`. -/
def app_defaults (env : Env) (mod_name : String) (data : PyDict String) :
    PyDict String :=
  match import_class env (mod_name ++ ".config") with
  | some cfg => copy_public_attrs cfg.attrs data
  | none => data

/-- Lines 196-238 of `Config.app_section`, starting from the copied raw
section `data0`. `Except.error` is the `DeprecationWarning` escaping to
the caller; `Except.ok none` is the `except Exception` handler printing
the error and returning `None`; `Except.ok (some d)` is success. -/
def app_section_raw (env : Env) (data0 : PyDict String) (name : String) :
    Except String (Option (PyDict String)) :=
  match data0 "type" with
  | some _ => Except.error dep_warning_msg
  | none =>
    let data1 := dset data0 "type" name
    match data1 "type" with
    | none => Except.ok none -- KeyError, caught below (cannot occur)
    | some ty =>
      match import_app env ty with
      | Except.error _ => Except.ok none -- caught by the handler
      | Except.ok (mod_str, mmod) =>
        let data2 := dset data1 "module" mod_str
        match data2 "module" with
        | none => Except.ok none -- KeyError, caught below (cannot occur)
        | some mn =>
          let data3 := app_defaults env mn data2
          match mmod with
          | none => Except.ok none -- None.__path__ raises; caught
          | some m =>
            match m.path with
            | [] => Except.ok none -- missing or empty __path__; caught
            | p :: _ => Except.ok (some (dset data3 "path" p))

/-- Lines 191-238: `Config.app_section`. A name with no section in the
raw data gets the empty dict (`self.raw_data.get(name, {}).copy()`). -/
def app_section (env : Env) (raw_data : String → Option (PyDict String))
    (name : String) : Except String (Option (PyDict String)) :=
  app_section_raw env ((raw_data name).getD demp) name

/-- The dict `app_section` returns on its success path, spelled out: the
raw options, then `type` and `module`, then the `config.py` defaults,
then `path` (whose value `p` is `module.__path__[0]`). -/
def merged_app (env : Env) (raw : PyDict String) (name p : String) :
    PyDict String :=
  dset (app_defaults env name (dset (dset raw "type" name) "module" name))
    "path" p

/-- Lines 241-254: `Config.backend_section`. -/
def backend_section (raw_data : String → Option (PyDict String))
    (name : String) : PyDict String :=
  let data := (raw_data name).getD demp
  match data "type" with
  | some _ => data
  | none => dset data "type" name

/-- One read through `LazyAppConf`'s mapping interface: `keys()` or
`__getitem__`; both call `_dict()` exactly once. -/
inductive LazyOp where
  | keys_read
  | getitem_read (k : String)
deriving DecidableEq, Repr

/-- Lines 34-37: `LazyAppConf._dict`. The cache field holds `None` until
the first computation, and `app_section` itself returns `None` on a
swallowed failure, so a failure result leaves the cache empty. Returns
(result as seen by the caller, new cache, number of invocations of the
underlying computation during this call). -/
def lazy_dict (compute : Except String (Option (PyDict String)))
    (cache : Option (PyDict String)) :
    Except String (Option (PyDict String)) × Option (PyDict String) × Nat :=
  match cache with
  | some d => (Except.ok (some d), some d, 0)
  | none =>
    match compute with
    | Except.error e => (Except.error e, none, 1)
    | Except.ok r => (Except.ok r, r, 1)

/-- Run a sequence of reads against one `LazyAppConf` whose underlying
computation (`config.app_section(app_name)`) evaluates to `compute`,
counting how many times the computation is invoked in total. -/
def lazy_run (compute : Except String (Option (PyDict String))) :
    List LazyOp → Option (PyDict String) → Nat
  | [], _ => 0
  | _ :: ops, cache =>
    let step := lazy_dict compute cache
    step.2.2 + lazy_run compute ops step.2.1

/-- A value of the dict produced by `Config.parse_i18n_section`: a plain
string, a list of language settings (each itself a list of fields), or a
list of locale paths. -/
inductive I18nVal where
  | str (s : String)
  | langs (l : List (List String))
  | paths (l : List String)
deriving DecidableEq, Repr

/-- Lines 275-295: `Config.parse_i18n_section` over the section's values
(the relevant values are strings after normalization; see
`normalize_value`). -/
def parse_i18n_section (raw_section : String → Option String) :
    PyDict I18nVal :=
  let out0 : PyDict I18nVal :=
    match raw_section "default_language" with
    | some v => dset demp "default_language" (I18nVal.str v)
    | none => demp
  let add_language_settings :=
    fun (out : PyDict I18nVal) (setting : String) =>
      match raw_section setting with
      | none => out
      | some v =>
        dset out setting
          (I18nVal.langs
            ((to_list v "),(").map
              (fun g => to_list (py_strip_chars g "()") ",")))
  let out1 := add_language_settings out0 "languages"
  let out2 := add_language_settings out1 "web_languages"
  let out3 := add_language_settings out2 "sms_languages"
  match raw_section "locale_paths" with
  | some v => dset out3 "locale_paths" (I18nVal.paths (to_list v ","))
  | none => out3

/-! Concrete fixtures used to evaluate the definitions at specific
inputs. -/

/-- An import environment in which every import raises `ImportError`. -/
def env_none : Env := fun _ => none

/-- A configuration source with no sections at all. -/
def rd_none : String → Option (PyDict String) := fun _ => none

/-- A source whose `echo` app section contains the reserved key
`"type"`. -/
def rd_echo_type : String → Option (PyDict String) :=
  fun n => if n = "echo" then some (dset demp "type" "sms") else none

/-- A source whose `http` backend section has a `port` option and no
`"type"` option. -/
def rd_http : String → Option (PyDict String) :=
  fun n => if n = "http" then some (dset demp "port" "80") else none

/-- A source whose `irc` backend section carries an explicit
`"type"` option. -/
def rd_irc : String → Option (PyDict String) :=
  fun n => if n = "irc" then some (dset demp "type" "tcp") else none

/-- An environment where the app `echo` resolves as a fully-qualified
name: the module lives at `/apps/echo` and its `config.py` declares the
single public name `path = "default-path"`. -/
def env_echo : Env :=
  fun s =>
    if s = "echo" then some ⟨["/apps/echo"], []⟩
    else if s = "echo.config" then
      some ⟨[], [("path", "default-path")]⟩
    else none

/-- A source whose `echo` app section supplies the user option
`path = "user-path"` (the same key `echo`'s `config.py` declares). -/
def rd_echo_path : String → Option (PyDict String) :=
  fun n => if n = "echo" then some (dset demp "path" "user-path") else none

/-- The `"path"` entry of the descriptor `app_section` produces for
`echo` under `env_echo` and `rd_echo_path`. -/
def echo_result_path : Option String :=
  match app_section env_echo rd_echo_path "echo" with
  | Except.ok (some d) => d "path"
  | _ => none

/-- An environment where the app `echo` resolves and its `config.py`
declares the public default `greeting = "hi"` plus a private name. -/
def env_echo_greeting : Env :=
  fun s =>
    if s = "echo" then some ⟨["/apps/echo"], []⟩
    else if s = "echo.config" then
      some ⟨[], [("_secret", "x"), ("greeting", "hi")]⟩
    else none

/-- The i18n section of the spec's worked example: a single `languages`
value holding two parenthesized groups. -/
def i18n_example : String → Option String :=
  fun k =>
    if k = "languages" then some "(en,English),(fr,French)" else none

/-! Helper lemmas about the dict model and the merge pipeline. -/

theorem dset_get_same {α : Type} (d : PyDict α) (k : String) (v : α) :
    dset d k v k = some v := by
  simp [dset]

theorem dset_get_other {α : Type} (d : PyDict α) (k v_key : String) (v : α)
    (h : v_key ≠ k) : dset d k v v_key = d v_key := by
  simp [dset, h]

theorem copy_public_attrs_nil (d : PyDict String) :
    copy_public_attrs [] d = d := rfl

theorem copy_public_attrs_cons (k0 v0 : String)
    (rest : List (String × String)) (d : PyDict String) :
    copy_public_attrs ((k0, v0) :: rest) d =
      copy_public_attrs rest
        (if py_startswith k0 "_" then d else dset d k0 v0) := rfl

/-- A key that never occurs in `attrs` is untouched by the defaults
copy. -/
theorem copy_public_attrs_not_mem :
    ∀ (attrs : List (String × String)) (d : PyDict String) (k : String),
      k ∉ attrs.map Prod.fst → copy_public_attrs attrs d k = d k := by
  intro attrs
  induction attrs with
  | nil => intro d k _; rfl
  | cons kv rest ih =>
    intro d k h
    obtain ⟨k0, v0⟩ := kv
    simp only [List.map_cons, List.mem_cons, not_or] at h
    rw [copy_public_attrs_cons, ih _ _ h.2]
    by_cases hs : py_startswith k0 "_" = true
    · rw [if_pos hs]
    · rw [if_neg hs, dset_get_other _ _ _ _ h.1]

/-- A public key listed in `attrs` (whose names are distinct, as `dir`
guarantees) ends up in the copied dict with its declared value. -/
theorem copy_public_attrs_get :
    ∀ (attrs : List (String × String)) (d : PyDict String) (k v : String),
      (attrs.map Prod.fst).Nodup → (k, v) ∈ attrs →
      py_startswith k "_" = false →
      copy_public_attrs attrs d k = some v := by
  intro attrs
  induction attrs with
  | nil => intro d k v _ hmem _; cases hmem
  | cons kv rest ih =>
    intro d k v hnd hmem hpub
    obtain ⟨k0, v0⟩ := kv
    rw [List.map_cons, List.nodup_cons] at hnd
    rw [copy_public_attrs_cons]
    rcases List.mem_cons.mp hmem with heq | hrest
    · injection heq with hk hv
      subst hk; subst hv
      rw [if_neg (by simp [hpub]),
        copy_public_attrs_not_mem rest _ k hnd.1, dset_get_same]
    · exact ih _ _ _ hnd.2 hrest hpub

/-- Any key of the copied dict either was already in the base dict with
the same value, or is a public name of `attrs`. -/
theorem copy_public_attrs_cases :
    ∀ (attrs : List (String × String)) (d : PyDict String) (k v : String),
      copy_public_attrs attrs d k = some v →
      d k = some v ∨
        ∃ v2, (k, v2) ∈ attrs ∧ py_startswith k "_" = false := by
  intro attrs
  induction attrs with
  | nil => intro d k v h; exact Or.inl h
  | cons kv rest ih =>
    intro d k v h
    obtain ⟨k0, v0⟩ := kv
    rw [copy_public_attrs_cons] at h
    rcases ih _ _ _ h with hd | ⟨v2, hmem, hpub⟩
    · by_cases hs : py_startswith k0 "_" = true
      · rw [if_pos hs] at hd
        exact Or.inl hd
      · rw [if_neg hs] at hd
        by_cases hk : k = k0
        · subst hk
          exact Or.inr ⟨v0, List.mem_cons_self _ _, by simpa using hs⟩
        · rw [dset_get_other _ _ _ _ hk] at hd
          exact Or.inl hd
    · exact Or.inr ⟨v2, List.mem_cons_of_mem _ hmem, hpub⟩

/-- `__import_app` always returns its first attempt: the requested name
paired with whatever `__import_class` produced (possibly `None`). -/
theorem import_app_eq (env : Env) (app_type : String) :
    import_app env app_type =
      Except.ok (app_type, import_class env app_type) := rfl

/-- The success path of `app_section_raw`: no reserved `"type"` key, the
name imports to a module `m`, and `m.__path__` is nonempty. -/
theorem app_section_raw_success (env : Env) (data0 : PyDict String)
    (name : String) (m : PyModule) (p : String) (tail : List String)
    (hty : data0 "type" = none) (hm : env name = some m)
    (hpath : m.path = p :: tail) :
    app_section_raw env data0 name =
      Except.ok (some (merged_app env data0 name p)) := by
  have h1 : (dset data0 "type" name) "type" = some name := dset_get_same _ _ _
  have h2 : (dset (dset data0 "type" name) "module" name) "module" = some name :=
    dset_get_same _ _ _
  simp only [app_section_raw, hty, h1, import_app_eq, import_class, hm, h2,
    hpath, merged_app]

/-- The failure path of `app_section_raw` when the name does not import:
`module` is `None`, `None.__path__` raises, the handler returns `None`. -/
theorem app_section_raw_fail_no_module (env : Env) (data0 : PyDict String)
    (name : String) (hty : data0 "type" = none) (hm : env name = none) :
    app_section_raw env data0 name = Except.ok none := by
  have h1 : (dset data0 "type" name) "type" = some name := dset_get_same _ _ _
  simp only [app_section_raw, hty, h1, import_app_eq, import_class, hm,
    dset_get_same]

/-- The failure path of `app_section_raw` when the module imports but
`module.__path__[0]` raises. -/
theorem app_section_raw_fail_no_path (env : Env) (data0 : PyDict String)
    (name : String) (m : PyModule) (hty : data0 "type" = none)
    (hm : env name = some m) (hpath : m.path = []) :
    app_section_raw env data0 name = Except.ok none := by
  have h1 : (dset data0 "type" name) "type" = some name := dset_get_same _ _ _
  simp only [app_section_raw, hty, h1, import_app_eq, import_class, hm,
    dset_get_same, hpath]

/-- Reads served from a populated cache never invoke the underlying
computation. -/
theorem lazy_run_cached (compute : Except String (Option (PyDict String)))
    (ops : List LazyOp) (d : PyDict String) :
    lazy_run compute ops (some d) = 0 := by
  induction ops with
  | nil => rfl
  | cons op rest ih => simp [lazy_run, lazy_dict, ih]

/-! Claim theorems. -/

/-- C1: the claim says resolution falls back to the namespace roots when
the direct attempt fails and raises an `ImportError` naming the roots
when all attempts fail. The code cannot do either: `__import_class`
catches `ImportError` itself and returns `None`, so `__import_app`
always returns its first attempt — for the unresolvable name
`"balloons"` it returns `("balloons", None)` instead of trying
`rapidsms.contrib.apps.balloons` and `rapidsms.apps.balloons`, and the
loop and `raise ImportError` of lines 168-184 (embedded as
`import_app_fallback`, which would have produced exactly the error the
claim and the source docstring describe) are unreachable. -/
theorem c1_import_app_never_raises :
    (∀ (env : Env) (app_type : String),
        import_app env app_type =
          Except.ok (app_type, import_class env app_type))
  ∧ import_app env_none "balloons" = Except.ok ("balloons", none)
  ∧ import_app_fallback env_none "balloons" app_prefixes =
      Except.error
        "Couldn't import \"balloons\" from rapidsms.contrib.apps or rapidsms.apps" :=
  ⟨fun _ _ => rfl, rfl, rfl⟩

/-- C2: the claim (and the docstring of `__normalize_value`, lines
112-113) says a string that parses as a number is returned as the parsed
numeric value. The code discards the results of `int(value)` and
`float(value)` (`try: func(value) except: pass`), so `"0"` — which
parses as the integer 0 — and `"1.5"` — which parses as a float — both
come back as unchanged strings. -/
theorem c2_numeric_parse_discarded :
    py_int "0" = some 0 ∧ normalize_value "0" = NormalizedValue.str "0" ∧
    py_float_ok "1.5" = true ∧
    normalize_value "1.5" = NormalizedValue.str "1.5" :=
  ⟨by decide, by decide, by decide, by decide⟩

/-- C3 counterexample: the claim says the underlying computation runs at
most once, its result — including a failure result — being cached. But
`LazyAppConf._dict` uses `self._cache is None` as its "not yet computed"
test, and `app_section`'s swallowed-failure result is exactly `None`:
for the unresolvable app `ghost`, `app_section` evaluates to `None` and
two reads through the mapping interface invoke it twice, not once. -/
theorem c3_counterexample :
    app_section env_none rd_none "ghost" = Except.ok none ∧
    lazy_run (app_section env_none rd_none "ghost")
      [LazyOp.keys_read, LazyOp.keys_read] none = 2 :=
  ⟨rfl, rfl⟩

/-- C3 (amended): across any sequence of reads through the mapping
interface, a successful (non-`None`) underlying result is computed at
most once — on the first access — and cached for the handle's lifetime;
a failure result is not cached. -/
theorem c3_success_computed_once (d : PyDict String) (ops : List LazyOp) :
    lazy_run (Except.ok (some d)) ops none ≤ 1 := by
  cases ops with
  | nil => simp [lazy_run]
  | cons op rest => simp [lazy_run, lazy_dict, lazy_run_cached]

/-- C4: for an app section without the reserved `"type"` key, every
error raised during the merge sequence inside the `try` block is caught
by the `except Exception` handler (which prints it and returns `None`):
`app_section` never propagates an error to its caller. -/
theorem c4_merge_failures_swallowed (env : Env)
    (rd : String → Option (PyDict String)) (name : String)
    (hty : ((rd name).getD demp) "type" = none) :
    ∀ e, app_section env rd name ≠ Except.error e := by
  intro e
  simp only [app_section, app_section_raw, hty]
  repeat' split
  all_goals simp

/-- C4 witness: for the unresolvable app `ghost` (whose raw options lack
`"type"`), `app_section` does not propagate an error. -/
theorem c4_witness : app_section env_none rd_none "ghost" ≠ Except.error "boom" :=
  c4_merge_failures_swallowed env_none rd_none "ghost" rfl "boom"

/-- C5 counterexample: the claim quantifies over every key defined both
in the user's raw options and in the app's `config.py` defaults, and
says the default value wins in the resulting descriptor. The key
`"path"` breaks it: for the app `echo` the user supplies
`path = "user-path"`, `echo/config.py` declares `path = "default-path"`,
yet the resulting descriptor carries `path = "/apps/echo"` — the value
of `module.__path__[0]`, recorded after the defaults copy — not the
component-declared default. -/
theorem c5_counterexample :
    ((rd_echo_path "echo").getD demp) "path" = some "user-path" ∧
    env_echo "echo.config" = some ⟨[], [("path", "default-path")]⟩ ∧
    echo_result_path = some "/apps/echo" ∧
    echo_result_path ≠ some "default-path" :=
  ⟨rfl, rfl, rfl, by decide⟩

/-- C5 (amended): for every app whose code unit resolves and whose
`config.py` is present, every public name the `config.py` declares is
copied into the merged options after the raw options, so for any key
defined in both the component-declared default overwrites the
user-supplied value in the resulting descriptor — except the key
`"path"`, which is subsequently overwritten with the resolved filesystem
location. -/
theorem c5_defaults_overwrite_user (env : Env)
    (rd : String → Option (PyDict String)) (name : String) (m : PyModule)
    (p : String) (tail : List String) (cfg : PyModule) (k v : String)
    (hty : ((rd name).getD demp) "type" = none)
    (hm : env name = some m)
    (hpath : m.path = p :: tail)
    (hcfg : import_class env (name ++ ".config") = some cfg)
    (hnd : (cfg.attrs.map Prod.fst).Nodup)
    (hmem : (k, v) ∈ cfg.attrs)
    (hpub : py_startswith k "_" = false)
    (hk : k ≠ "path") :
    app_section env rd name =
      Except.ok (some (merged_app env ((rd name).getD demp) name p)) ∧
    merged_app env ((rd name).getD demp) name p k = some v := by
  constructor
  · exact app_section_raw_success env _ name m p tail hty hm hpath
  · unfold merged_app
    rw [dset_get_other _ _ _ _ hk]
    unfold app_defaults
    rw [hcfg]
    exact copy_public_attrs_get cfg.attrs _ k v hnd hmem hpub

/-- C5 witness: the app `echo` has no raw section, resolves under
`env_echo_greeting`, and its `config.py` declares the public default
`greeting = "hi"` (and a private `_secret`); the merged descriptor for
`echo` carries `greeting = "hi"`. -/
theorem c5_witness :
    app_section env_echo_greeting rd_none "echo" =
      Except.ok (some (merged_app env_echo_greeting demp "echo" "/apps/echo")) ∧
    merged_app env_echo_greeting demp "echo" "/apps/echo" "greeting" = some "hi" :=
  c5_defaults_overwrite_user env_echo_greeting rd_none "echo"
    ⟨["/apps/echo"], []⟩ "/apps/echo" []
    ⟨[], [("_secret", "x"), ("greeting", "hi")]⟩ "greeting" "hi"
    rfl rfl rfl rfl (by decide) (by decide) (by decide) (by decide)

/-- C6: an app section whose raw options contain `"type"` makes
`app_section` raise the `DeprecationWarning` of lines 202-205 before the
`try` block, so it escapes to the caller — for every import environment,
showing no code-unit resolution is consulted. -/
theorem c6_type_option_raises (env : Env)
    (rd : String → Option (PyDict String)) (name t : String)
    (h : ((rd name).getD demp) "type" = some t) :
    app_section env rd name = Except.error dep_warning_msg := by
  simp only [app_section, app_section_raw, h]

/-- C6 witness: the `echo` app section carries `type = "sms"`, so
`app_section` fails with the deprecation error even though nothing is
importable in `env_none`. -/
theorem c6_witness :
    app_section env_none rd_echo_type "echo" = Except.error dep_warning_msg :=
  c6_type_option_raises env_none rd_echo_type "echo" "sms" rfl

/-- C7: `backend_section` is total, and: without a raw `"type"` option
the result is the raw options plus `type
= name` (all other keys untouched); with one, the raw options are
returned unchanged, the supplied `"type"` included. -/
theorem c7_backend_type_defaulting (rd : String → Option (PyDict String))
    (name : String) :
    (((rd name).getD demp) "type" = none →
        backend_section rd name = dset ((rd name).getD demp) "type" name ∧
        backend_section rd name "type" = some name ∧
        ∀ k, k ≠ "type" →
          backend_section rd name k = ((rd name).getD demp) k)
  ∧ (∀ t, ((rd name).getD demp) "type" = some t →
        backend_section rd name = (rd name).getD demp) := by
  constructor
  · intro h
    have hb : backend_section rd name = dset ((rd name).getD demp) "type" name := by
      simp only [backend_section, h]
    refine ⟨hb, ?_, ?_⟩
    · rw [hb]; exact dset_get_same _ _ _
    · intro k hk; rw [hb]; exact dset_get_other _ _ _ _ hk
  · intro t h
    simp only [backend_section, h]

/-- C7 witness: the `http` backend (raw options `{port: "80"}`, no
`"type"`) gets `type = "http"`; the `irc` backend (raw options
`{type: "tcp"}`) is returned unchanged. -/
theorem c7_witness :
    backend_section rd_http "http" "type" = some "http" ∧
    backend_section rd_irc "irc" = (rd_irc "irc").getD demp :=
  ⟨((c7_backend_type_defaulting rd_http "http").1 rfl).2.1,
   (c7_backend_type_defaulting rd_irc "irc").2 "tcp" rfl⟩

/-- C8: a string whose lowercase form is `"false"` or `"no"` normalizes
to `Boolean(false)`, and one whose lowercase form is `"true"` or
`"yes"` normalizes to `Boolean(true)`, whatever the input's case. -/
theorem c8_boolean_keywords (s : String) :
    ((py_lower s = "false" ∨ py_lower s = "no") →
        normalize_value s = NormalizedValue.bool false)
  ∧ ((py_lower s = "true" ∨ py_lower s = "yes") →
        normalize_value s = NormalizedValue.bool true) := by
  constructor
  · intro h
    have hmem : py_lower s ∈ (["false", "no"] : List String) := by
      rcases h with h | h <;> simp [h]
    simp [normalize_value, hmem]
  · intro h
    have hmem : py_lower s ∈ (["true", "yes"] : List String) := by
      rcases h with h | h <;> simp [h]
    have hnot : py_lower s ∉ (["false", "no"] : List String) := by
      rcases h with h | h <;> rw [h] <;> decide
    simp [normalize_value, hmem, hnot]

/-- C8 witness: `"FALSE"` normalizes to `Boolean(false)` and `"Yes"` to
`Boolean(true)`. -/
theorem c8_witness :
    normalize_value "FALSE" = NormalizedValue.bool false ∧
    normalize_value "Yes" = NormalizedValue.bool true :=
  ⟨(c8_boolean_keywords "FALSE").1 (Or.inl (by decide)),
   (c8_boolean_keywords "Yes").2 (Or.inr (by decide))⟩

/-- C9: parsing the i18n value `"(en,English),(fr,French)"` splits on
the `"),( "`-transition separator, strips surrounding parentheses and
whitespace from each group, and yields the entries
`[en, English]` then `[fr, French]`, in that order. -/
theorem c9_i18n_language_list :
    parse_i18n_section i18n_example "languages" =
      some (I18nVal.langs [["en", "English"], ["fr", "French"]]) := by
  decide

/-- C10: a component name with no section in the configuration source is
merged from the empty raw-options dict: `backend_section` returns
exactly `{type: name}`, and `app_section` runs on the empty dict, so any
key of a successfully merged app descriptor is one the merge itself adds
— `type`, `module`, `path`, or a public name declared by the app's
`config.py`. -/
theorem c10_missing_section_empty_options (env : Env)
    (rd : String → Option (PyDict String)) (name : String)
    (h : rd name = none) :
    backend_section rd name = dset demp "type" name
  ∧ app_section env rd name = app_section_raw env demp name
  ∧ (∀ d k v, app_section env rd name = Except.ok (some d) → d k = some v →
      k = "type" ∨ k = "module" ∨ k = "path" ∨
      ∃ cfg v2, import_class env (name ++ ".config") = some cfg ∧
        (k, v2) ∈ cfg.attrs ∧ py_startswith k "_" = false) := by
  have hraw : (rd name).getD demp = demp := by rw [h]; rfl
  have happ : app_section env rd name = app_section_raw env demp name := by
    simp only [app_section, hraw]
  refine ⟨?_, happ, ?_⟩
  · simp only [backend_section, hraw]
    rfl
  · intro d k v hok hkv
    rw [happ] at hok
    rcases hm : env name with _ | m
    · rw [app_section_raw_fail_no_module env demp name rfl hm] at hok
      cases hok
    · rcases hp : m.path with _ | ⟨p, tail⟩
      · rw [app_section_raw_fail_no_path env demp name m rfl hm hp] at hok
        cases hok
      · rw [app_section_raw_success env demp name m p tail rfl hm hp] at hok
        injection hok with hok1
        injection hok1 with hok2
        subst hok2
        by_cases hkp : k = "path"
        · exact Or.inr (Or.inr (Or.inl hkp))
        · rw [merged_app, dset_get_other _ _ _ _ hkp] at hkv
          unfold app_defaults at hkv
          rcases hc : import_class env (name ++ ".config") with _ | cfg
          · rw [hc] at hkv
            replace hkv :
                (dset (dset demp "type" name) "module" name) k = some v := hkv
            by_cases hkm : k = "module"
            · exact Or.inr (Or.inl hkm)
            · rw [dset_get_other _ _ _ _ hkm] at hkv
              by_cases hkt : k = "type"
              · exact Or.inl hkt
              · rw [dset_get_other _ _ _ _ hkt] at hkv
                cases hkv
          · rw [hc] at hkv
            replace hkv :
                copy_public_attrs cfg.attrs
                  (dset (dset demp "type" name) "module" name) k = some v := hkv
            rcases copy_public_attrs_cases cfg.attrs _ k v hkv with hbase | hattr
            · by_cases hkm : k = "module"
              · exact Or.inr (Or.inl hkm)
              · rw [dset_get_other _ _ _ _ hkm] at hbase
                by_cases hkt : k = "type"
                · exact Or.inl hkt
                · rw [dset_get_other _ _ _ _ hkt] at hbase
                  cases hbase
            · obtain ⟨v2, hmem, hpub⟩ := hattr
              exact Or.inr (Or.inr (Or.inr ⟨cfg, v2, rfl, hmem, hpub⟩))

/-- C10 witness: the backend `ghost` has no section at all, and its
merged record is exactly `{type: "ghost"}`. -/
theorem c10_witness :
    backend_section rd_none "ghost" = dset demp "type" "ghost" :=
  (c10_missing_section_empty_options env_none rd_none "ghost" rfl).1
